import Mathlib

/-!
Shallow embedding of the fleet-dashboard pipeline (src/app.py).

The program is a single-pass pandas pipeline: load an "Income" sheet and
all other sheets from a workbook, normalize a pickup date, filter income
rows by driver and date range, group by (Truck, Driver), accumulate
per-truck expense sums from the other sheets into ten fixed category
fields, and derive Total Expenses, Profit/Loss and Profit per Load.

Modelling conventions:
- a spreadsheet cell is `Cell`: missing (`na`, pandas NaN/NaT), a string,
  or a number; currency numbers are pandas float64 in the source and are
  idealized here as exact integers (amounts in minor units): every claim
  below is a structural identity between computed columns, independent of
  the numeric representation; the one true division of the pipeline,
  Profit per Load, is taken exactly in the rationals;
- a pandas DataFrame is a list of rows; a raw sheet keeps its column
  labels so that the column-name sniffing of the source is reproduced;
- pandas groupby drops rows whose key is missing (`dropna=True`), series
  sum skips missing values, and count counts non-missing values; the
  embedding reproduces each of these;
- comparisons against a missing date (`NaT`) are false in pandas, which
  the date filter reproduces;
- the date parser (`pd.to_datetime` with coercion of errors) is an
  abstract parameter `parse : String → Option Int` (never raises: a
  failed parse is `none`); dates are abstract integers;
- pandas `astype(str)` renders a missing value as the string "nan",
  reproduced by `cellStr`.
-/

/-- Cell of a spreadsheet / pandas DataFrame: missing (NaN/NaT), string, or number. -/
inductive Cell
  | na : Cell
  | str (s : String) : Cell
  | num (q : Int) : Cell
deriving DecidableEq

/-- Numeric view of a cell; pandas arithmetic skips non-numeric entries. -/
def cellNum : Cell → Option Int
  | Cell.num q => some q
  | _ => none

/-- Rendering of a cell by pandas astype(str): a missing value becomes "nan". -/
def cellStr : Cell → String
  | Cell.na => "nan"
  | Cell.str s => s
  | Cell.num q => toString q

/-- Sum of the numeric entries of a cell list; pandas Series.sum skips NaN. -/
def nsum (l : List Cell) : Int := (l.filterMap cellNum).sum

/-- Count of non-missing entries of a cell list; pandas "count" aggregation. -/
def ncountNonNA (l : List Cell) : Nat := (l.filter (fun c => decide (c ≠ Cell.na))).length

/-- One row of the Income sheet, with the five columns the program reads
(src/app.py uses columns Truck, Driver, Pickup, "Inv Amt", "Net pay"). -/
structure IncomeRow where
  truck : Cell
  driver : Cell
  pickup : Cell
  invAmt : Cell
  netPay : Cell
deriving DecidableEq

/-- Income DataFrame: its rows, plus whether a "Pickup" column is present
(app.py line 28 branches on that). -/
structure IncomeDF where
  hasPickup : Bool
  rows : List IncomeRow
deriving DecidableEq

/-- Substring of a string before its first comma: app.py line 29 takes
element 0 of str.split(","). -/
def beforeComma (s : String) : String :=
  String.mk (s.data.takeWhile (fun c => c != ','))

/-- Pickup_Date of a row (app.py lines 28-31): when a "Pickup" column exists,
the text before the first comma of the cell rendered via astype(str) is fed
to the date parser (errors coerced to none); otherwise the date is missing. -/
def pickupDate (parse : String → Option Int) (hasPickup : Bool) (r : IncomeRow) : Option Int :=
  if hasPickup then parse (beforeComma (cellStr r.pickup)) else none

/-- Driver filter (app.py line 46): keep rows whose Driver cell is a member
of the selected list (pandas isin). -/
def driverFilter (sel : List Cell) (rows : List IncomeRow) : List IncomeRow :=
  rows.filter (fun r => sel.contains r.driver)

/-- Date-range filter (app.py lines 47-49): applied only when the supplied
range has exactly two endpoints; a row passes when its Pickup_Date is
within [start, stop]; a missing date compares false (pandas NaT). -/
def dateFilter (parse : String → Option Int) (hasPickup : Bool)
    (range : List Int) (rows : List IncomeRow) : List IncomeRow :=
  match range with
  | [start, stop] =>
      rows.filter (fun r =>
        match pickupDate parse hasPickup r with
        | some d => decide (start ≤ d) && decide (d ≤ stop)
        | none => false)
  | _ => rows

/-- Grouping key of an income row for groupby(["Truck", "Driver"]); pandas
drops rows whose key contains a missing value (dropna=True). -/
def keyOf (r : IncomeRow) : Option (Cell × Cell) :=
  match r.truck, r.driver with
  | Cell.na, _ => none
  | _, Cell.na => none
  | t, d => some (t, d)

/-- Distinct (Truck, Driver) keys of the filtered income rows (app.py line 57). -/
def groupKeys (rows : List IncomeRow) : List (Cell × Cell) :=
  (rows.filterMap keyOf).dedup

/-- Rows belonging to the group of key k. -/
def groupRows (rows : List IncomeRow) (k : Cell × Cell) : List IncomeRow :=
  rows.filter (fun r => decide (keyOf r = some k))

/-- One summary row after the groupby aggregation and the zero
initialization of the ten expense category columns (app.py lines 57-67). -/
structure SummaryRow where
  truck : Cell
  driver : Cell
  totalLoads : Nat
  totalInvAmt : Int
  totalNetPay : Int
  loanExp : Int
  insurance : Int
  ifta : Int
  plates : Int
  prepass : Int
  office : Int
  repairs : Int
  fuel : Int
  tolls : Int
  factoringFee : Int
deriving DecidableEq

/-- Groupby aggregation (app.py lines 57-67): one summary row per distinct
(Truck, Driver) key; Total_Loads counts non-missing "Inv Amt" cells,
Total_Inv_Amt and Total_Net_Pay sum their columns skipping missing values;
the ten expense categories start at 0. -/
def aggregate (rows : List IncomeRow) : List SummaryRow :=
  (groupKeys rows).map (fun k =>
    let g := groupRows rows k
    { truck := k.1
      driver := k.2
      totalLoads := ncountNonNA (g.map IncomeRow.invAmt)
      totalInvAmt := nsum (g.map IncomeRow.invAmt)
      totalNetPay := nsum (g.map IncomeRow.netPay)
      loanExp := 0, insurance := 0, ifta := 0, plates := 0, prepass := 0
      office := 0, repairs := 0, fuel := 0, tolls := 0, factoringFee := 0 })

/-- Raw sheet: ordered column labels and a row-major grid of cells. -/
structure RawSheet where
  cols : List String
  data : List (List Cell)
deriving DecidableEq

/-- Cell of a grid row at column index j (missing when the row is short). -/
def cellAt (row : List Cell) (j : Nat) : Cell := row.getD j Cell.na

/-- Character-list test that n occurs as a leading block of h. -/
def leadsWith : List Char → List Char → Bool
  | [], _ => true
  | _ :: _, [] => false
  | a :: n, b :: h => a == b && leadsWith n h

/-- Character-list substring occurrence (python "needle in hay"). -/
def hasSub (n : List Char) : List Char → Bool
  | [] => leadsWith n []
  | c :: t => leadsWith n (c :: t) || hasSub n t

/-- Lowercasing of a string (python str.lower on the labels involved). -/
def lowerStr (s : String) : String := String.mk (s.data.map Char.toLower)

/-- Substring test used by the column sniffing and the category dispatch:
needle occurs in hay. -/
def containsSub (needle hay : String) : Bool := hasSub needle.data hay.data

/-- Index of the first column whose lowercased label has "truck" or "unit"
(app.py lines 71-75). -/
def findTruckCol (cols : List String) : Option Nat :=
  cols.findIdx? (fun c => containsSub ("truck") (lowerStr c) || containsSub ("unit") (lowerStr c))

/-- Index of the first column whose lowercased label has "amount" or "cost"
(app.py line 77). -/
def findAmtCol (cols : List String) : Option Nat :=
  cols.findIdx? (fun c => containsSub ("amount") (lowerStr c) || containsSub ("cost") (lowerStr c))

/-- The ten expense categories (app.py lines 64-65). -/
inductive ECat
  | loanExp | insurance | ifta | plates | prepass
  | office | repairs | fuel | tolls | factoringFee
deriving DecidableEq

/-- Ordered keyword dispatch from a sheet name to a category
(app.py lines 82-103); first matching rule wins, unmatched sheets map to none. -/
def catOf (sheetName : String) : Option ECat :=
  let s := lowerStr sheetName
  if containsSub ("loan") s then some ECat.loanExp
  else if containsSub ("insur") s then some ECat.insurance
  else if containsSub ("eld") s then some ECat.ifta
  else if containsSub ("reg") s then some ECat.plates
  else if containsSub ("prepass") s then some ECat.prepass
  else if containsSub ("office") s then some ECat.office
  else if containsSub ("repair") s || containsSub ("maint") s then some ECat.repairs
  else if containsSub ("fuel") s then some ECat.fuel
  else if containsSub ("toll") s then some ECat.tolls
  else if containsSub ("driver") s then some ECat.factoringFee
  else none

/-- Per-identifier expense sums of a sheet (app.py line 80):
groupby on the identifier column (missing keys dropped), summing the
amount column with missing values skipped; the result is a dictionary. -/
def expenseDict (df : RawSheet) (ti ai : Nat) : List (Cell × Int) :=
  let keys := ((df.data.map (fun row => cellAt row ti)).filter (fun c => decide (c ≠ Cell.na))).dedup
  keys.map (fun k =>
    (k, nsum ((df.data.filter (fun row => decide (cellAt row ti = k))).map (fun row => cellAt row ai))))

/-- Dictionary lookup by exact key equality (python dict membership/access). -/
def dictLookup (d : List (Cell × Int)) (k : Cell) : Option Int :=
  (d.find? (fun p => decide (p.1 = k))).map Prod.snd

/-- Value of a category field of a summary row. -/
def getCat (c : ECat) (r : SummaryRow) : Int :=
  match c with
  | ECat.loanExp => r.loanExp
  | ECat.insurance => r.insurance
  | ECat.ifta => r.ifta
  | ECat.plates => r.plates
  | ECat.prepass => r.prepass
  | ECat.office => r.office
  | ECat.repairs => r.repairs
  | ECat.fuel => r.fuel
  | ECat.tolls => r.tolls
  | ECat.factoringFee => r.factoringFee

/-- Add an amount into one category field of a summary row
(app.py line 108, summary.loc[i, colname] += ...). -/
def addCat (c : ECat) (a : Int) (r : SummaryRow) : SummaryRow :=
  match c with
  | ECat.loanExp => { r with loanExp := r.loanExp + a }
  | ECat.insurance => { r with insurance := r.insurance + a }
  | ECat.ifta => { r with ifta := r.ifta + a }
  | ECat.plates => { r with plates := r.plates + a }
  | ECat.prepass => { r with prepass := r.prepass + a }
  | ECat.office => { r with office := r.office + a }
  | ECat.repairs => { r with repairs := r.repairs + a }
  | ECat.fuel => { r with fuel := r.fuel + a }
  | ECat.tolls => { r with tolls := r.tolls + a }
  | ECat.factoringFee => { r with factoringFee := r.factoringFee + a }

/-- Accumulation loop over the summary rows (app.py lines 106-108): each
summary row whose Truck is a key of the dictionary gets the dictionary
value added into the resolved category field. -/
def applyDict (d : List (Cell × Int)) (c : ECat) (s : List SummaryRow) : List SummaryRow :=
  s.map (fun row =>
    match dictLookup d row.truck with
    | some a => addCat c a row
    | none => row)

/-- Processing of one expense sheet (app.py lines 70-108): resolve the
identifier column, the amount column and the category; if any fails the
summary is unchanged; otherwise accumulate the per-identifier sums. -/
def processSheet (s : List SummaryRow) (sheetName : String) (df : RawSheet) : List SummaryRow :=
  match findTruckCol df.cols with
  | none => s
  | some ti =>
    match findAmtCol df.cols with
    | none => s
    | some ai =>
      match catOf sheetName with
      | none => s
      | some c => applyDict (expenseDict df ti ai) c s

/-- Sum of the ten category fields (app.py line 111). -/
def totalExpensesOf (r : SummaryRow) : Int :=
  r.loanExp + r.insurance + r.ifta + r.plates + r.prepass +
    r.office + r.repairs + r.fuel + r.tolls + r.factoringFee

/-- Final summary row with the three derived columns of app.py lines 111-113. -/
structure FinalRow extends SummaryRow where
  totalExpenses : Int
  profitLoss : Int
  profitPerLoad : Option Rat
deriving DecidableEq

/-- Derived columns (app.py lines 111-113): Total Expenses is the sum of
the ten category fields, Profit/Loss is Total_Net_Pay minus Total
Expenses, and Profit per Load divides Profit/Loss by Total_Loads; the
division by a zero load count yields the undefined value none (pandas
float division produces a non-finite NaN/inf there, never an exception). -/
def finalize (r : SummaryRow) : FinalRow :=
  let te := totalExpensesOf r
  let pl := r.totalNetPay - te
  { toSummaryRow := r
    totalExpenses := te
    profitLoss := pl
    profitPerLoad := if r.totalLoads = 0 then none else some ((pl : Rat) / (r.totalLoads : Rat)) }

/-- Filtered income rows (app.py lines 46-49): driver filter, then the
date-range filter. -/
def filteredOf (parse : String → Option Int) (income : IncomeDF)
    (sel : List Cell) (range : List Int) : List IncomeRow :=
  dateFilter parse income.hasPickup range (driverFilter sel income.rows)

/-- Whole aggregation pipeline on a loaded income DataFrame and the list of
expense sheets (name, sheet), in workbook order: filter, group, fold the
expense sheets over the summary, then derive the final columns. -/
def summaryOf (parse : String → Option Int) (income : IncomeDF)
    (expSheets : List (String × RawSheet)) (sel : List Cell) (range : List Int) : List FinalRow :=
  ((expSheets.foldl (fun s nd => processSheet s nd.1 nd.2)
      (aggregate (filteredOf parse income sel range))).map finalize)

/-- Uploaded workbook: named sheets in order. -/
structure Workbook where
  sheets : List (String × RawSheet)
deriving DecidableEq

/-- First sheet with the given name, if any. -/
def lookupSheet (wb : Workbook) (name : String) : Option RawSheet :=
  (wb.sheets.find? (fun p => p.1 == name)).map Prod.snd

/-- Reading of the Income sheet into typed rows: each program-relevant
column is located by its exact label; a missing label yields missing
cells (the program itself assumes Truck/Driver/Inv Amt/Net pay exist);
the "Pickup" column may legitimately be absent (app.py lines 28-31). -/
def parseIncome (raw : RawSheet) : IncomeDF :=
  { hasPickup := raw.cols.contains ("Pickup")
    rows := raw.data.map (fun row =>
      { truck := cellAt row ((raw.cols.findIdx? (fun c => c == "Truck")).getD row.length)
        driver := cellAt row ((raw.cols.findIdx? (fun c => c == "Driver")).getD row.length)
        pickup := cellAt row ((raw.cols.findIdx? (fun c => c == "Pickup")).getD row.length)
        invAmt := cellAt row ((raw.cols.findIdx? (fun c => c == "Inv Amt")).getD row.length)
        netPay := cellAt row ((raw.cols.findIdx? (fun c => c == "Net pay")).getD row.length) }) }

/-- Whole program run (app.py lines 17-113): loading a workbook without an
"Income" sheet halts with the user-visible error before anything else
(st.error + st.stop); otherwise every other sheet is treated as an
expense sheet, in order, and the summary is produced. -/
def runPipeline (parse : String → Option Int) (wb : Workbook)
    (sel : List Cell) (range : List Int) : Except String (List FinalRow) :=
  match lookupSheet wb ("Income") with
  | none => Except.error ("Could not find sheet named Income in the file.")
  | some raw =>
      Except.ok (summaryOf parse (parseIncome raw)
        (wb.sheets.filter (fun p => p.1 != "Income")) sel range)

/-! ### Sample inputs used by the concrete instances below -/

/-- Date parser that fails on every string (the parser is abstract; claims
quantify over it, instances pick concrete ones). -/
def noParse : String → Option Int := fun _ => none

/-- Date parser recognizing exactly one date string. -/
def oneDateParse : String → Option Int :=
  fun s => if s = "2024-01-05" then some 20240105 else none

/-- Income row of truck T1 / driver D1 whose "Inv Amt" cell is blank (so
its group has Total_Loads = 0) and whose net pay is 800. -/
def sampleIncomeRow : IncomeRow :=
  { truck := Cell.str "T1", driver := Cell.str "D1", pickup := Cell.na,
    invAmt := Cell.na, netPay := Cell.num 800 }

/-- Income sheet holding just sampleIncomeRow. -/
def sampleIncome : IncomeDF := { hasPickup := false, rows := [sampleIncomeRow] }

/-- Expense sheet named by its columns Truck/Amount, one row: T1 spent 200. -/
def sampleFuelSheet : RawSheet :=
  { cols := ["Truck", "Amount"], data := [[Cell.str "T1", Cell.num 200]] }

/-- The summary row that the pipeline produces from sampleIncome with the
fuel sheet attached: net pay 800, fuel 200, profit 600, no loads counted. -/
def sampleFinalRow : FinalRow :=
  { toSummaryRow :=
      { truck := Cell.str "T1", driver := Cell.str "D1", totalLoads := 0,
        totalInvAmt := 0, totalNetPay := 800,
        loanExp := 0, insurance := 0, ifta := 0, plates := 0, prepass := 0,
        office := 0, repairs := 0, fuel := 200, tolls := 0, factoringFee := 0 }
    totalExpenses := 200, profitLoss := 600, profitPerLoad := none }

/-- Income sheet with a row whose Truck cell is blank: the row passes the
driver filter but is dropped by the groupby. -/
def blankTruckIncome : IncomeDF :=
  { hasPickup := false
    rows := [ { truck := Cell.na, driver := Cell.str "D1", pickup := Cell.na,
                invAmt := Cell.num 100, netPay := Cell.num 100 } ] }

/-- Income row with no usable pickup text (the Pickup column is absent in
the scenarios that use it). -/
def noPickupRow : IncomeRow :=
  { truck := Cell.str "T1", driver := Cell.str "D1", pickup := Cell.na,
    invAmt := Cell.num 100, netPay := Cell.num 100 }

/-- Two summary rows sharing truck T1 under different drivers. -/
def twoDriverSummaryA : SummaryRow :=
  { truck := Cell.str "T1", driver := Cell.str "D1", totalLoads := 3,
    totalInvAmt := 3000, totalNetPay := 2400,
    loanExp := 0, insurance := 0, ifta := 0, plates := 0, prepass := 0,
    office := 0, repairs := 0, fuel := 0, tolls := 0, factoringFee := 0 }

/-- Second summary row of the same truck, other driver. -/
def twoDriverSummaryB : SummaryRow :=
  { truck := Cell.str "T1", driver := Cell.str "D2", totalLoads := 2,
    totalInvAmt := 2000, totalNetPay := 1600,
    loanExp := 0, insurance := 0, ifta := 0, plates := 0, prepass := 0,
    office := 0, repairs := 0, fuel := 0, tolls := 0, factoringFee := 0 }

/-- Summary with two rows of truck T1 under two drivers. -/
def twoDriverSummary : List SummaryRow := [twoDriverSummaryA, twoDriverSummaryB]

/-- Expense sheet whose identifier "T1 " carries a stray trailing blank, so
it matches no summary row whose Truck is exactly "T1". -/
def paddedIdentSheet : RawSheet :=
  { cols := ["Unit", "Cost"], data := [[Cell.str "T1 ", Cell.num 75]] }

/-- Workbook containing no sheet named Income. -/
def noIncomeWorkbook : Workbook := { sheets := [("Fuel", sampleFuelSheet)] }

/-- Income row whose Pickup text holds a date, a comma, then a time tag. -/
def datedPickupRow : IncomeRow :=
  { truck := Cell.str "T1", driver := Cell.str "D1",
    pickup := Cell.str "2024-01-05, AM", invAmt := Cell.num 100, netPay := Cell.num 100 }

/-- Income row whose Pickup cell is blank. -/
def blankPickupRow : IncomeRow :=
  { truck := Cell.str "T1", driver := Cell.str "D1", pickup := Cell.na,
    invAmt := Cell.num 100, netPay := Cell.num 100 }

/-! ### Helper lemmas -/

/-- A row mapped to a group key has a non-missing truck and driver. -/
theorem keyOf_ne_na (r : IncomeRow) (k : Cell × Cell) (h : keyOf r = some k) :
    r.truck ≠ Cell.na ∧ r.driver ≠ Cell.na := by
  obtain ⟨t, d, pk, ia, np⟩ := r
  cases t <;> cases d <;> simp [keyOf] at h ⊢

/-- The grouping key exists exactly when truck and driver are non-missing. -/
theorem keyOf_isSome (r : IncomeRow) :
    (keyOf r).isSome = (decide (r.truck ≠ Cell.na) && decide (r.driver ≠ Cell.na)) := by
  obtain ⟨t, d, pk, ia, np⟩ := r
  cases t <;> cases d <;> simp [keyOf]

/-- Sum of a pointwise addition of two maps. -/
theorem sum_map_add_nat {α : Type} (f g : α → Nat) (l : List α) :
    (l.map (fun a => f a + g a)).sum = (l.map f).sum + (l.map g).sum := by
  induction l with
  | nil => simp
  | cons a t ih => simp [ih]; omega

/-- Indicator sum over a list not containing the key is zero. -/
theorem sum_map_ite_not_mem {κ : Type} [DecidableEq κ] (k0 : κ) (ks : List κ) (h : k0 ∉ ks) :
    (ks.map (fun k => if k0 = k then (1:Nat) else 0)).sum = 0 := by
  induction ks with
  | nil => simp
  | cons a t ih =>
      rw [List.mem_cons, not_or] at h
      simp [h.1, ih h.2]

/-- Indicator sum over a duplicate-free list containing the key is one. -/
theorem sum_map_ite_mem {κ : Type} [DecidableEq κ] (k0 : κ) (ks : List κ)
    (hnd : ks.Nodup) (hm : k0 ∈ ks) :
    (ks.map (fun k => if k0 = k then (1:Nat) else 0)).sum = 1 := by
  induction ks with
  | nil => cases hm
  | cons a t ih =>
      rw [List.nodup_cons] at hnd
      rcases List.mem_cons.mp hm with h | h
      · subst h
        simp [sum_map_ite_not_mem k0 t hnd.1]
      · have hne : k0 ≠ a := fun e => hnd.1 (e ▸ h)
        simp [hne, ih hnd.2 h]

/-- One row contributes its indicator to exactly one group key of a
duplicate-free covering key list. -/
theorem sum_map_ite_key {κ : Type} [DecidableEq κ] (ks : List κ) (hnd : ks.Nodup)
    (ko : Option κ) (b : Bool) (hcov : ∀ k, ko = some k → k ∈ ks) :
    (ks.map (fun k => if (b && decide (ko = some k)) = true then (1:Nat) else 0)).sum
      = if (ko.isSome && b) = true then 1 else 0 := by
  cases ko with
  | none => cases b <;> simp
  | some k0 =>
      cases b with
      | false => simp
      | true =>
          have hm := hcov k0 rfl
          have heq : ∀ k : κ,
              (if (true && decide (some k0 = some k)) = true then (1:Nat) else 0)
                = if k0 = k then (1:Nat) else 0 := by
            intro k
            by_cases h : k0 = k <;> simp [h]
          simp only [heq]
          rw [sum_map_ite_mem k0 ks hnd hm]
          simp

/-- Partition of a filtered count over a duplicate-free covering key list. -/
theorem countP_split_by_key {α κ : Type} [DecidableEq κ] (key : α → Option κ) (P : α → Bool) :
    ∀ (rows : List α) (ks : List κ), ks.Nodup →
      (∀ r ∈ rows, ∀ k, key r = some k → k ∈ ks) →
      (ks.map (fun k => rows.countP (fun r => P r && decide (key r = some k)))).sum
        = rows.countP (fun r => (key r).isSome && P r) := by
  intro rows
  induction rows with
  | nil => intro ks hnd hcov; simp
  | cons r rs ih =>
      intro ks hnd hcov
      have ihr := ih ks hnd (fun x hx => hcov x (List.mem_cons_of_mem _ hx))
      simp only [List.countP_cons]
      rw [sum_map_add_nat, ihr,
        sum_map_ite_key ks hnd (key r) (P r) (fun k hk => hcov r (List.mem_cons_self r rs) k hk)]

/-- Counting over the groups of the distinct keys equals counting the rows
that carry a key. -/
theorem countP_partition {α κ : Type} [DecidableEq κ] (key : α → Option κ) (P : α → Bool)
    (rows : List α) :
    (((rows.filterMap key).dedup).map
        (fun k => (rows.filter (fun r => decide (key r = some k))).countP P)).sum
      = rows.countP (fun r => (key r).isSome && P r) := by
  have h1 : ∀ k : κ, (rows.filter (fun r => decide (key r = some k))).countP P
      = rows.countP (fun r => P r && decide (key r = some k)) := by
    intro k
    rw [List.countP_filter]
  simp only [h1]
  exact countP_split_by_key key P rows _ (List.nodup_dedup _)
    (fun r hr k hk => List.mem_dedup.mpr (List.mem_filterMap.mpr ⟨r, hr, hk⟩))

/-- addCat leaves the load count unchanged. -/
theorem totalLoads_addCat (c : ECat) (a : Int) (r : SummaryRow) :
    (addCat c a r).totalLoads = r.totalLoads := by
  cases c <;> rfl

/-- The accumulation loop leaves the load counts unchanged. -/
theorem map_totalLoads_applyDict (d : List (Cell × Int)) (c : ECat) (s : List SummaryRow) :
    (applyDict d c s).map SummaryRow.totalLoads = s.map SummaryRow.totalLoads := by
  unfold applyDict
  rw [List.map_map]
  apply List.map_congr_left
  intro r hr
  simp only [Function.comp]
  cases h : dictLookup d r.truck <;> simp [h, totalLoads_addCat]

/-- Processing one expense sheet leaves the load counts unchanged. -/
theorem map_totalLoads_processSheet (s : List SummaryRow) (n : String) (df : RawSheet) :
    (processSheet s n df).map SummaryRow.totalLoads = s.map SummaryRow.totalLoads := by
  unfold processSheet
  cases findTruckCol df.cols with
  | none => rfl
  | some ti =>
      cases findAmtCol df.cols with
      | none => rfl
      | some ai =>
          cases catOf n with
          | none => rfl
          | some c => exact map_totalLoads_applyDict (expenseDict df ti ai) c s

/-- Folding all expense sheets over the summary leaves the load counts
unchanged. -/
theorem map_totalLoads_fold (sheets : List (String × RawSheet)) (base : List SummaryRow) :
    ((sheets.foldl (fun s nd => processSheet s nd.1 nd.2) base).map SummaryRow.totalLoads)
      = base.map SummaryRow.totalLoads := by
  induction sheets generalizing base with
  | nil => rfl
  | cons nd t ih => rw [List.foldl_cons, ih, map_totalLoads_processSheet]

/-- The load count of each aggregated group counts its rows with a
non-missing "Inv Amt" cell. -/
theorem map_totalLoads_aggregate (rows : List IncomeRow) :
    (aggregate rows).map SummaryRow.totalLoads
      = (groupKeys rows).map
          (fun k => (groupRows rows k).countP (fun r => decide (r.invAmt ≠ Cell.na))) := by
  unfold aggregate
  rw [List.map_map]
  apply List.map_congr_left
  intro k hk
  simp only [Function.comp]
  show ncountNonNA ((groupRows rows k).map IncomeRow.invAmt) = _
  unfold ncountNonNA
  rw [← List.countP_eq_length_filter, List.countP_map]
  rfl

/-! ### Claim theorems -/

/-- C1: for every summary row produced by the pipeline, the Profit/Loss
field equals Total_Net_Pay minus Total Expenses, exactly. -/
theorem profit_loss_is_net_pay_minus_total_expenses
    (parse : String → Option Int) (income : IncomeDF) (expSheets : List (String × RawSheet))
    (sel : List Cell) (range : List Int) (row : FinalRow)
    (h : row ∈ summaryOf parse income expSheets sel range) :
    row.profitLoss = row.totalNetPay - row.totalExpenses := by
  unfold summaryOf at h
  rcases List.mem_map.mp h with ⟨b, hb, rfl⟩
  simp [finalize]

/-- C1 instance: the identity on a concrete pipeline run. -/
theorem profit_loss_identity_instance :
    sampleFinalRow ∈ summaryOf noParse sampleIncome [("Fuel", sampleFuelSheet)] [Cell.str "D1"] []
      ∧ sampleFinalRow.profitLoss = sampleFinalRow.totalNetPay - sampleFinalRow.totalExpenses :=
  ⟨by decide,
   profit_loss_is_net_pay_minus_total_expenses noParse sampleIncome [("Fuel", sampleFuelSheet)]
     [Cell.str "D1"] [] sampleFinalRow (by decide)⟩

/-- C2: for every summary row produced by the pipeline, the Total Expenses
field equals the sum of the ten expense category fields, exactly. -/
theorem total_expenses_is_sum_of_ten_categories
    (parse : String → Option Int) (income : IncomeDF) (expSheets : List (String × RawSheet))
    (sel : List Cell) (range : List Int) (row : FinalRow)
    (h : row ∈ summaryOf parse income expSheets sel range) :
    row.totalExpenses = row.loanExp + row.insurance + row.ifta + row.plates + row.prepass
      + row.office + row.repairs + row.fuel + row.tolls + row.factoringFee := by
  unfold summaryOf at h
  rcases List.mem_map.mp h with ⟨b, hb, rfl⟩
  simp [finalize, totalExpensesOf]

/-- C2 instance: the identity on a concrete pipeline run. -/
theorem total_expenses_identity_instance :
    sampleFinalRow ∈ summaryOf noParse sampleIncome [("Fuel", sampleFuelSheet)] [Cell.str "D1"] []
      ∧ sampleFinalRow.totalExpenses
        = sampleFinalRow.loanExp + sampleFinalRow.insurance + sampleFinalRow.ifta
          + sampleFinalRow.plates + sampleFinalRow.prepass + sampleFinalRow.office
          + sampleFinalRow.repairs + sampleFinalRow.fuel + sampleFinalRow.tolls
          + sampleFinalRow.factoringFee :=
  ⟨by decide,
   total_expenses_is_sum_of_ten_categories noParse sampleIncome [("Fuel", sampleFuelSheet)]
     [Cell.str "D1"] [] sampleFinalRow (by decide)⟩

/-- C10: Profit per Load is computed totally over all summary rows: a row
with a zero load count carries the undefined value (pandas produces a
non-finite float there, never an exception), and any other row carries
the exact quotient. -/
theorem profit_per_load_division_total_none_at_zero_loads
    (parse : String → Option Int) (income : IncomeDF) (expSheets : List (String × RawSheet))
    (sel : List Cell) (range : List Int) (row : FinalRow)
    (h : row ∈ summaryOf parse income expSheets sel range) :
    (row.totalLoads = 0 → row.profitPerLoad = none) ∧
    (row.totalLoads ≠ 0 →
      row.profitPerLoad = some ((row.profitLoss : Rat) / (row.totalLoads : Rat))) := by
  unfold summaryOf at h
  rcases List.mem_map.mp h with ⟨b, hb, rfl⟩
  constructor
  · intro h0
    have hb0 : b.totalLoads = 0 := h0
    simp [finalize, hb0]
  · intro h0
    have hb0 : ¬ (b.totalLoads = 0) := h0
    simp [finalize, hb0]

/-- C10 instance: a pipeline run reaching a zero load count (blank
"Inv Amt" cell) yields the undefined Profit per Load, with no failure. -/
theorem profit_per_load_zero_loads_instance :
    sampleFinalRow.totalLoads = 0 ∧ sampleFinalRow.profitPerLoad = none :=
  ⟨rfl, (profit_per_load_division_total_none_at_zero_loads noParse sampleIncome
      [("Fuel", sampleFuelSheet)] [Cell.str "D1"] [] sampleFinalRow (by decide)).1 rfl⟩

/-- C7: a workbook with no sheet named Income halts the run with the
user-visible error; no summary is produced. -/
theorem missing_income_sheet_halts_with_error
    (parse : String → Option Int) (wb : Workbook) (sel : List Cell) (range : List Int)
    (h : ∀ p ∈ wb.sheets, p.1 ≠ "Income") :
    runPipeline parse wb sel range
      = Except.error ("Could not find sheet named Income in the file.") := by
  have hfind : wb.sheets.find? (fun p => p.1 == "Income") = none :=
    List.find?_eq_none.mpr (fun x hx => by simp only [beq_iff_eq]; exact h x hx)
  have hnone : lookupSheet wb ("Income") = none := by
    unfold lookupSheet
    rw [hfind]
    rfl
  unfold runPipeline
  rw [hnone]

/-- C7 instance: a concrete workbook without an Income sheet errors out. -/
theorem missing_income_sheet_instance :
    lookupSheet noIncomeWorkbook ("Income") = none ∧
      runPipeline noParse noIncomeWorkbook [] []
        = Except.error ("Could not find sheet named Income in the file.") :=
  ⟨by decide,
   missing_income_sheet_halts_with_error noParse noIncomeWorkbook [] [] (by decide)⟩

/-- C9: every income row belonging to an aggregated group has a
non-missing Truck cell and a non-missing Driver cell (the groupby drops
rows with a missing key). -/
theorem aggregated_rows_have_nonmissing_truck_and_driver
    (rows : List IncomeRow) (k : Cell × Cell) (r : IncomeRow)
    (hk : k ∈ groupKeys rows) (hr : r ∈ groupRows rows k) :
    r.truck ≠ Cell.na ∧ r.driver ≠ Cell.na := by
  unfold groupRows at hr
  have h := (List.mem_filter.mp hr).2
  exact keyOf_ne_na r k (of_decide_eq_true h)

/-- C9 instance: the sample row sits in the group of its key and has
non-missing Truck and Driver. -/
theorem aggregated_rows_nonmissing_instance :
    ((Cell.str "T1", Cell.str "D1") ∈ groupKeys sampleIncome.rows
        ∧ sampleIncomeRow ∈ groupRows sampleIncome.rows (Cell.str "T1", Cell.str "D1"))
      ∧ (sampleIncomeRow.truck ≠ Cell.na ∧ sampleIncomeRow.driver ≠ Cell.na) :=
  ⟨⟨by decide, by decide⟩,
   aggregated_rows_have_nonmissing_truck_and_driver sampleIncome.rows
     (Cell.str "T1", Cell.str "D1") sampleIncomeRow (by decide) (by decide)⟩

/-- Length preservation of one expense sheet pass. -/
theorem processSheet_length (s : List SummaryRow) (n : String) (df : RawSheet) :
    (processSheet s n df).length = s.length := by
  unfold processSheet
  cases findTruckCol df.cols with
  | none => rfl
  | some ti =>
      cases findAmtCol df.cols with
      | none => rfl
      | some ai =>
          cases catOf n with
          | none => rfl
          | some c => simp [applyDict]

/-- C5: when the identifier column, the amount column and the category all
resolve, every summary row whose Truck is a key of the per-identifier sums
gets that full summed amount added into the category field, row by row —
in particular rows sharing one truck under different drivers each get it. -/
theorem sheet_amount_added_to_each_matching_summary_row
    (sheetName : String) (df : RawSheet) (s : List SummaryRow) (ti ai : Nat) (c : ECat) (a : Int)
    (i : Nat) (hi : i < s.length) (hi2 : i < (processSheet s sheetName df).length)
    (ht : findTruckCol df.cols = some ti) (ha : findAmtCol df.cols = some ai)
    (hc : catOf sheetName = some c)
    (hl : dictLookup (expenseDict df ti ai) ((s.get ⟨i, hi⟩).truck) = some a) :
    (processSheet s sheetName df).get ⟨i, hi2⟩ = addCat c a (s.get ⟨i, hi⟩) := by
  have hd : applyDict (expenseDict df ti ai) c s = processSheet s sheetName df := by
    unfold processSheet
    rw [ht, ha, hc]
  have hl2 : dictLookup (expenseDict df ti ai) ((s[i]).truck) = some a := hl
  have happ : (applyDict (expenseDict df ti ai) c s)[i]?
      = some (addCat c a (s.get ⟨i, hi⟩)) := by
    unfold applyDict
    rw [List.getElem?_map, List.getElem?_eq_getElem hi]
    simp [hl2]
  rw [hd, List.getElem?_eq_getElem hi2] at happ
  exact Option.some.inj happ

/-- C5 instance: a fuel sheet of truck T1 adds its 200 to both summary
rows of truck T1, one per driver. -/
theorem sheet_amount_added_both_drivers_instance :
    (processSheet twoDriverSummary ("Fuel") sampleFuelSheet).get ⟨0, by decide⟩
        = addCat ECat.fuel 200 (twoDriverSummary.get ⟨0, by decide⟩)
      ∧ (processSheet twoDriverSummary ("Fuel") sampleFuelSheet).get ⟨1, by decide⟩
        = addCat ECat.fuel 200 (twoDriverSummary.get ⟨1, by decide⟩) :=
  ⟨sheet_amount_added_to_each_matching_summary_row ("Fuel") sampleFuelSheet twoDriverSummary
      0 1 ECat.fuel 200 0 (by decide) (by decide) (by decide) (by decide) (by decide) (by decide),
   sheet_amount_added_to_each_matching_summary_row ("Fuel") sampleFuelSheet twoDriverSummary
      0 1 ECat.fuel 200 1 (by decide) (by decide) (by decide) (by decide) (by decide) (by decide)⟩

/-- C6: expense attribution matches the summary Truck against a sheet's
identifier values by exact equality only; a summary row whose Truck is
not exactly a key of the per-identifier sums is left unchanged, so that
sheet contributes 0 to every category field of that row. -/
theorem unmatched_truck_gets_no_contribution
    (sheetName : String) (df : RawSheet) (s : List SummaryRow) (ti ai : Nat) (c : ECat)
    (i : Nat) (hi : i < s.length) (hi2 : i < (processSheet s sheetName df).length)
    (ht : findTruckCol df.cols = some ti) (ha : findAmtCol df.cols = some ai)
    (hc : catOf sheetName = some c)
    (hl : dictLookup (expenseDict df ti ai) ((s.get ⟨i, hi⟩).truck) = none) :
    (processSheet s sheetName df).get ⟨i, hi2⟩ = s.get ⟨i, hi⟩ := by
  have hd : applyDict (expenseDict df ti ai) c s = processSheet s sheetName df := by
    unfold processSheet
    rw [ht, ha, hc]
  have hl2 : dictLookup (expenseDict df ti ai) ((s[i]).truck) = none := hl
  have happ : (applyDict (expenseDict df ti ai) c s)[i]? = some (s.get ⟨i, hi⟩) := by
    unfold applyDict
    rw [List.getElem?_map, List.getElem?_eq_getElem hi]
    simp [hl2]
  rw [hd, List.getElem?_eq_getElem hi2] at happ
  exact Option.some.inj happ

/-- C6 instance: an identifier "T1 " with a stray trailing blank does not
match the Truck "T1"; the repairs sheet leaves the row untouched. -/
theorem unmatched_truck_whitespace_instance :
    (processSheet twoDriverSummary ("Repairs") paddedIdentSheet).get ⟨0, by decide⟩
      = twoDriverSummary.get ⟨0, by decide⟩ :=
  unmatched_truck_gets_no_contribution ("Repairs") paddedIdentSheet twoDriverSummary
    0 1 ECat.repairs 0 (by decide) (by decide) (by decide) (by decide) (by decide) (by decide)

/-- C3 counterexample: a filtered row whose Truck cell is blank passes the
driver filter yet is dropped by the groupby, so the Total_Loads sum falls
short of the filtered row count. -/
theorem total_loads_sum_equals_filtered_count_fails :
    ¬ (((summaryOf noParse blankTruckIncome [] [Cell.str "D1"] []).map
          (fun r => r.totalLoads)).sum
        = (filteredOf noParse blankTruckIncome [Cell.str "D1"] []).length) := by
  decide

/-- C3 (amended): the Total_Loads sum over all summary rows equals the
number of filtered income rows having a non-missing Truck, a non-missing
Driver and a non-missing "Inv Amt" cell (the groupby drops rows with a
missing key, and the count aggregation skips missing cells). -/
theorem total_loads_sum_counts_groupable_filtered_rows
    (parse : String → Option Int) (income : IncomeDF) (expSheets : List (String × RawSheet))
    (sel : List Cell) (range : List Int) :
    ((summaryOf parse income expSheets sel range).map (fun r => r.totalLoads)).sum
      = ((filteredOf parse income sel range).filter
          (fun r => decide (r.truck ≠ Cell.na) && decide (r.driver ≠ Cell.na)
            && decide (r.invAmt ≠ Cell.na))).length := by
  unfold summaryOf
  rw [List.map_map]
  have h1 : ((fun r : FinalRow => r.totalLoads) ∘ finalize) = SummaryRow.totalLoads := by
    funext b
    rfl
  rw [h1, map_totalLoads_fold, map_totalLoads_aggregate]
  unfold groupKeys groupRows
  rw [countP_partition keyOf (fun r => decide (r.invAmt ≠ Cell.na))
      (filteredOf parse income sel range)]
  rw [← List.countP_eq_length_filter]
  apply List.countP_congr
  intro r hr
  rw [keyOf_isSome]

/-- C4 counterexample: with the Pickup column absent and a two-endpoint
range supplied, the date filter does not pass the records unchanged. -/
theorem absent_pickup_filter_noop_fails :
    ¬ (dateFilter noParse false [0, 10] [noPickupRow] = [noPickupRow]) := by
  decide

/-- C4 (amended): if the Income sheet has no Pickup column, every record's
date is null; date filtering with a supplied two-endpoint range then
excludes every record (null dates compare false), and only when fewer
than two endpoints are supplied do all records pass unchanged. -/
theorem absent_pickup_dates_null_and_range_filter_excludes_all
    (parse : String → Option Int) (range : List Int) (rows : List IncomeRow) :
    (∀ r : IncomeRow, pickupDate parse false r = none) ∧
    (range.length = 2 → dateFilter parse false range rows = []) ∧
    (range.length ≠ 2 → dateFilter parse false range rows = rows) := by
  refine ⟨fun r => rfl, ?_, ?_⟩
  · intro h2
    have hab : ∃ a b, range = [a, b] := by
      rcases range with _ | ⟨a, _ | ⟨b, _ | ⟨c, t⟩⟩⟩
      · simp at h2
      · simp at h2
      · exact ⟨a, b, rfl⟩
      · simp at h2
    rcases hab with ⟨a, b, rfl⟩
    unfold dateFilter
    simp [pickupDate]
  · intro hn
    rcases range with _ | ⟨a, _ | ⟨b, _ | ⟨c, t⟩⟩⟩
    · rfl
    · rfl
    · exact absurd rfl hn
    · rfl

/-- C4 instance: a concrete record with no pickup data is excluded by a
two-endpoint range and passed through by an empty range. -/
theorem absent_pickup_filter_instance :
    dateFilter noParse false [0, 10] [noPickupRow] = []
      ∧ dateFilter noParse false [] [noPickupRow] = [noPickupRow] :=
  ⟨(absent_pickup_dates_null_and_range_filter_excludes_all noParse [0, 10] [noPickupRow]).2.1 rfl,
   (absent_pickup_dates_null_and_range_filter_excludes_all noParse [] [noPickupRow]).2.2
     (by decide)⟩

/-- A block of elements satisfying p, then a failing element: takeWhile
returns exactly the block. -/
theorem takeWhile_append_stop {α : Type} (p : α → Bool) (l₁ l₂ : List α) (c : α)
    (h₁ : ∀ x ∈ l₁, p x = true) (hc : p c = false) :
    (l₁ ++ c :: l₂).takeWhile p = l₁ := by
  induction l₁ with
  | nil => simp [List.takeWhile_cons, hc]
  | cons a t ih =>
      have ha := h₁ a (List.mem_cons_self a t)
      have iht := ih (fun x hx => h₁ x (List.mem_cons_of_mem a hx))
      simp [List.takeWhile_cons, ha, iht]

/-- C8: the date normalizer takes the text of the Pickup cell before its
first comma and feeds it to the date parser; a blank cell is rendered
"nan" whose parse fails, yielding a null date; the normalizer is a total
function (a failed parse is the value none, never an exception). -/
theorem pickup_date_parses_text_before_first_comma
    (parse : String → Option Int) (r : IncomeRow) :
    (∀ s₁ s₂ : String, (∀ ch ∈ s₁.data, ch ≠ ',') →
        cellStr r.pickup = String.mk (s₁.data ++ ',' :: s₂.data) →
        pickupDate parse true r = parse s₁) ∧
    (parse ("nan") = none → r.pickup = Cell.na → pickupDate parse true r = none) := by
  constructor
  · intro s₁ s₂ hnc heq
    have h1 : pickupDate parse true r = parse (beforeComma (cellStr r.pickup)) := rfl
    rw [h1, heq]
    show parse (String.mk ((s₁.data ++ ',' :: s₂.data).takeWhile (fun c => c != ','))) = parse s₁
    rw [takeWhile_append_stop (fun c => c != ',') s₁.data s₂.data ','
        (fun x hx => by simpa using hnc x hx) (by simp)]
  · intro hp hna
    have h1 : pickupDate parse true r = parse (beforeComma (cellStr r.pickup)) := rfl
    rw [h1, hna]
    have h2 : beforeComma (cellStr Cell.na) = "nan" := by decide
    rw [h2]
    exact hp

/-- C8 instance: the cell "2024-01-05, AM" is parsed on "2024-01-05", and
a blank Pickup cell yields a null date. -/
theorem pickup_date_instance :
    pickupDate oneDateParse true datedPickupRow = oneDateParse ("2024-01-05")
      ∧ pickupDate oneDateParse true blankPickupRow = none :=
  ⟨(pickup_date_parses_text_before_first_comma oneDateParse datedPickupRow).1
      ("2024-01-05") (" AM") (by decide) (by decide),
   (pickup_date_parses_text_before_first_comma oneDateParse blankPickupRow).2
      (by decide) rfl⟩
